import Mathlib

/-!
Verification of the GateOne HTML whitelist sanitizer (`strip_xss` in
`gateone/utils.py`).  The Python function is shallowly embedded on
`List Char`: the tag-matching regular expression is modelled by a
continuation-passing backtracking matcher with the exact alternative
priorities of Python's `re` engine, and the string primitives used by the
function (`str.lower`, `str.split`, `str.lstrip`, `str.rstrip`,
`str.replace`, `cgi.escape`, `unicode.encode('ascii', 'xmlcharrefreplace')`)
are embedded directly.
-/

/-- Coerce a Lean string literal to the `List Char` representation used by
the embedding. -/
def str (s : String) : List Char := s.data

/-- Python `\s` (patterns compiled without `re.UNICODE`) and the whitespace
set of `str.split()` for ASCII text: space, tab, newline, carriage return,
vertical tab, form feed. -/
def isPySpace (c : Char) : Bool :=
  decide (c = ' ' ∨ c = '\t' ∨ c = '\n' ∨ c = '\x0d' ∨ c = '\x0b' ∨ c = '\x0c')

/-- Python `\w` for patterns compiled without `re.UNICODE`:
`[A-Za-z0-9_]`. -/
def isWordChar (c : Char) : Bool :=
  decide (('a' ≤ c ∧ c ≤ 'z') ∨ ('A' ≤ c ∧ c ≤ 'Z') ∨ ('0' ≤ c ∧ c ≤ '9') ∨ c = '_')

/-- ASCII lower-casing of one character, as `str.lower` acts on the ASCII
range (the only range exercised by the sanitizer's signatures and names). -/
def lowerChar (c : Char) : Char :=
  if 'A' ≤ c ∧ c ≤ 'Z' then Char.ofNat (c.toNat + 32) else c

/-- `str.lower` on a character list. -/
def lowerL (s : List Char) : List Char := s.map lowerChar

example : str "ab" = ['a', 'b'] := rfl
example : lowerL (str "A<Z>") = str "a<z>" := by decide

/-!
## The tag scanner

`utils.py` line 1574 compiles

  `(?i)<\/?\w+((\s+\w+(\s*=\s*(?:".*?"|\x27.*?\x27|[^\x27">\s]+))?)+\s*|\s*)\/?>`

and iterates its matches over the document with `finditer`.  The matcher
below is a continuation-passing backtracking engine: every construct tries
its alternatives in exactly the priority order of Python's `re` module
(alternation left first, greedy quantifiers longest first, lazy `.*?`
shortest first, `.` never matching a newline), so the produced matches
coincide with the source's.
-/

/-- A matcher consumes a prefix of the input and calls the continuation on
the remainder; alternatives are tried in priority order and the first
success wins, exactly as in a backtracking regex engine. -/
abbrev Matcher := List Char → (List Char → Option (List Char)) → Option (List Char)

/-- Match the empty string. -/
def mEps : Matcher := fun s k => k s

/-- Match one literal character. -/
def mChar (c : Char) : Matcher := fun s k =>
  match s with
  | [] => none
  | c2 :: rest => if c2 = c then k rest else none

/-- Sequencing of two matchers. -/
def mSeq (a b : Matcher) : Matcher := fun s k => a s fun s2 => b s2 k

/-- Alternation: the left branch has priority, as in Python `re`. -/
def mAlt (a b : Matcher) : Matcher := fun s k =>
  (a s k).orElse fun _ => b s k

/-- Greedy `?`: prefer the branch that consumes the operand. -/
def mOpt (a : Matcher) : Matcher := mAlt a mEps

/-- Try continuations after dropping `i, i-1, ..., lo` characters of `s`,
in that order: the backtracking behaviour of a greedy character-class
quantifier. -/
def tryDown (s : List Char) (k : List Char → Option (List Char)) (lo : Nat) :
    Nat → Option (List Char)
  | 0 => if lo = 0 then k s else none
  | i + 1 =>
    if i + 1 < lo then none
    else (k (s.drop (i + 1))).orElse fun _ => tryDown s k lo i

/-- Greedy `+` over a character class. -/
def mClassPlus (p : Char → Bool) : Matcher := fun s k =>
  tryDown s k 1 (s.takeWhile p).length

/-- Greedy `*` over a character class. -/
def mClassStar (p : Char → Bool) : Matcher := fun s k =>
  tryDown s k 0 (s.takeWhile p).length

/-- The tail of a lazy quoted value `q.*?q` after the opening quote: try
closing at each following quote, nearest first; `.` does not cross a
newline. -/
def lazyScan (q : Char) (k : List Char → Option (List Char)) :
    List Char → Option (List Char)
  | [] => none
  | c :: rest =>
    (if c = q then k rest else none).orElse fun _ =>
      if c = '\n' then none else lazyScan q k rest

/-- A quoted attribute value `".*?"` or `\x27.*?\x27`. -/
def mQuoted (q : Char) : Matcher := fun s k =>
  match s with
  | [] => none
  | c :: rest => if c = q then lazyScan q k rest else none

/-- A bare attribute value `[^\x27">\s]+`. -/
def mBareValue : Matcher :=
  mClassPlus fun c => !decide (c = '\'' ∨ c = '"' ∨ c = '>') && !isPySpace c

/-- One attribute: `\s+\w+(\s*=\s*(".*?"|\x27.*?\x27|[^\x27">\s]+))?`. -/
def mAttr : Matcher :=
  mSeq (mClassPlus isPySpace)
    (mSeq (mClassPlus isWordChar)
      (mOpt (mSeq (mClassStar isPySpace)
        (mSeq (mChar '=')
          (mSeq (mClassStar isPySpace)
            (mAlt (mQuoted '"') (mAlt (mQuoted '\'') mBareValue)))))))

/-- Greedy `+` over a sub-matcher, fuelled: prefer one more iteration, fall
back to stopping.  Each `mAttr` iteration consumes at least one character,
so fuel `|s| + 1` is never exhausted. -/
def mPlusFuel (a : Matcher) : Nat → Matcher
  | 0 => fun _ _ => none
  | n + 1 => fun s k =>
    a s fun s2 => ((mPlusFuel a n) s2 k).orElse fun _ => k s2

/-- The whole tag pattern of `re_html_tag` (its attribute-list group is
`(?:attrs+\s*|\s*)`), given iteration fuel for the attribute list. -/
def mTag (fuel : Nat) : Matcher :=
  mSeq (mChar '<')
    (mSeq (mOpt (mChar '/'))
      (mSeq (mClassPlus isWordChar)
        (mSeq (mAlt (mSeq (mPlusFuel mAttr fuel) (mClassStar isPySpace))
                    (mClassStar isPySpace))
          (mSeq (mOpt (mChar '/')) (mChar '>')))))

/-- Length of the `re_html_tag` match starting exactly at the head of `s`,
if any. -/
def matchTagAt (s : List Char) : Option Nat :=
  match mTag (s.length + 1) s some with
  | none => none
  | some rest => some (s.length - rest.length)

/-- `finditer` over the document: at each position take the priority-first
match if one starts there and resume after it; otherwise advance one
character.  Returns each match with its start offset. -/
def scanAux : Nat → Nat → List Char → List (Nat × List Char)
  | 0, _, _ => []
  | _ + 1, _, [] => []
  | fuel + 1, pos, c :: rest =>
    match matchTagAt (c :: rest) with
    | some (n + 1) =>
      (pos, (c :: rest).take (n + 1)) :: scanAux fuel (pos + n + 1) ((c :: rest).drop (n + 1))
    | _ => scanAux fuel (pos + 1) rest

/-- All `re_html_tag` matches of the document, with start offsets. -/
def scanTokens (doc : List Char) : List (Nat × List Char) :=
  scanAux (doc.length + 1) 0 doc

/-- The raw texts of the scanned tags, in document order. -/
def scanTexts (doc : List Char) : List (List Char) :=
  (scanTokens doc).map Prod.snd

example : scanTexts (str "a<b>c") = [str "<b>"] := by decide
example : scanTexts (str "<img src=\"<b>\"><b>") = [str "<img src=\"<b>\">", str "<b>"] := by decide
example : scanTexts (str "<img alt=<b> onload=x><b>") = [str "<img alt=<b>", str "<b>"] := by decide
example : scanTexts (str "<img />") = [str "<img />"] := by decide
example : scanTexts (str "no tags here") = [] := by decide

/-!
## The classifier

`utils.py` lines 1590-1617: each matched tag is lower-cased, its name is
derived by `tag_lower.split()[0].lstrip(stripLset).rstrip(closeSet)` with
the strip sets containing the angle-bracket and slash characters, and the
tag is collected into `bad_tags` when the name is not whitelisted or any of
the five signature checks fires.
-/

/-- Accumulator form of Python `str.split()` (split on whitespace runs,
discarding empty fields). -/
def splitWsAux (acc : List Char) : List Char → List (List Char)
  | [] => if acc.isEmpty then [] else [acc.reverse]
  | c :: rest =>
    if isPySpace c then
      if acc.isEmpty then splitWsAux [] rest
      else acc.reverse :: splitWsAux [] rest
    else splitWsAux (c :: acc) rest

/-- Python `str.split()` with no argument. -/
def pySplitWs (s : List Char) : List (List Char) := splitWsAux [] s

/-- Python `str.lstrip(chars)`: drop every leading character belonging to
the set. -/
def pyLstrip (cs : List Char) (s : List Char) : List Char :=
  s.dropWhile fun c => cs.any fun d => d = c

/-- Python `str.rstrip(chars)`: drop every trailing character belonging to
the set. -/
def pyRstrip (cs : List Char) (s : List Char) : List Char :=
  (s.reverse.dropWhile fun c => cs.any fun d => d = c).reverse

/-- The tag name the source compares against the whitelist:
`tag_lower.split()[0].lstrip(ltSlash).rstrip(gt)` applied to the
lower-cased tag text. -/
def shortTag (tagLower : List Char) : List Char :=
  pyRstrip ['>'] (pyLstrip ['<', '/'] ((pySplitWs tagLower).headD []))

/-- Is `pat` a prefix of `s`? -/
def prefAt (pat s : List Char) : Bool :=
  match pat, s with
  | [], _ => true
  | _ :: _, [] => false
  | p :: ps, c :: cs => decide (p = c) && prefAt ps cs

/-- Python `pat in s`: does `pat` occur as a contiguous substring of
`s`? -/
def containsSub (s pat : List Char) : Bool :=
  match s with
  | [] => pat.isEmpty
  | _ :: rest => prefAt pat s || containsSub rest pat

/-- The tail of the `on_events_re` group: `on[a-z]+\s*=` read at the head
of the list. -/
def onEvTail (l : List Char) : Bool :=
  match l with
  | 'o' :: 'n' :: rest =>
    let letters := rest.takeWhile fun c => decide ('a' ≤ c ∧ c ≤ 'z')
    !letters.isEmpty &&
      (match (rest.dropWhile fun c => decide ('a' ≤ c ∧ c ≤ 'z')).dropWhile isPySpace with
       | '=' :: _ => true
       | _ => false)
  | _ => false

/-- `on_events_re.search`: the pattern `.*\s+(on[a-z]+\s*=).*` succeeds on
a text exactly when some position holds a whitespace character immediately
followed by `on[a-z]+\s*=`. -/
def onEvents : List Char → Bool
  | [] => false
  | c :: rest => (isPySpace c && onEvTail rest) || onEvents rest

/-- Boolean membership of a tag name in the whitelist (`short_tag not in
whitelist` in the source). -/
def memB (x : List Char) : List (List Char) → Bool
  | [] => false
  | w :: ws => decide (w = x) || memB x ws

/-- The default whitelist built inside `strip_xss` when the caller passes
a falsy value (`utils.py` lines 1581-1589), verbatim. -/
def defaultWhitelist : List (List Char) :=
  [str "a", str "abbr", str "aside", str "audio", str "bdi", str "bdo",
   str "blockquote", str "canvas", str "caption", str "code", str "col",
   str "colgroup", str "data", str "dd", str "del", str "details",
   str "div", str "dl", str "dt", str "em", str "figcaption", str "figure",
   str "h1", str "h2", str "h3", str "h4", str "h5", str "h6", str "hr",
   str "i", str "img", str "ins", str "kbd", str "li", str "mark",
   str "ol", str "p", str "pre", str "q", str "rp", str "rt", str "ruby",
   str "s", str "samp", str "small", str "source", str "span",
   str "strong", str "sub", str "summary", str "sup", str "time",
   str "track", str "u", str "ul", str "var", str "video", str "wbr"]

/-- The whitelist actually used by a call: `if not whitelist:` replaces
`None` and the empty collection alike by the default list. -/
def effWhitelist : Option (List (List Char)) → List (List Char)
  | none => defaultWhitelist
  | some l => if l.isEmpty then defaultWhitelist else l

/-- The body of the scanning loop (`utils.py` lines 1591-1617): a tag goes
to `bad_tags` when its derived name is not whitelisted, or any of the five
signature checks fires, tested in the source's order. -/
def tagIsBad (wl : List (List Char)) (tag : List Char) : Bool :=
  let tl := lowerL tag
  let st := shortTag tl
  if !memB st wl then true
  else if containsSub tl (str "javascript:") then true
  else if onEvents tl then true
  else if containsSub tl (str "fscommand") then true
  else if containsSub tl (str "seeksegmenttime") then true
  else if containsSub tl (str "vbscript:") then true
  else false

/-!
## The replacement engine and the assembler

`utils.py` lines 1618-1626.  Both branches run Python's global
`str.replace` once per collected bad tag; the default ("symbol") branch
always inserts the literal `u"␡"` character, and the entities branch
inserts `cgi.escape(html).encode("ascii", "xmlcharrefreplace")` — the
escaping of the whole current document.
-/

/-- Python `str.replace(pat, rep)`: replace every non-overlapping
occurrence, left to right.  Fuelled; each step consumes at least one input
character, so fuel `|s|` suffices. -/
def replaceAllAux (pat rep : List Char) : Nat → List Char → List Char
  | 0, s => s
  | fuel + 1, s =>
    match s with
    | [] => []
    | c :: rest =>
      if prefAt pat s then rep ++ replaceAllAux pat rep fuel (s.drop pat.length)
      else c :: replaceAllAux pat rep fuel rest

/-- Python `s.replace(pat, rep)` for a non-empty pattern. -/
def pyReplace (s pat rep : List Char) : List Char :=
  replaceAllAux pat rep s.length s

/-- Python 2 `cgi.escape(s)` (no `quote` argument): the sequential
replacements of `&`, `<` and `>` by their entities; quotes are left
alone. -/
def cgiEscape (s : List Char) : List Char :=
  pyReplace (pyReplace (pyReplace s (str "&") (str "&amp;"))
    (str "<") (str "&lt;")) (str ">") (str "&gt;")

/-- `.encode("ascii", "xmlcharrefreplace")`: ASCII characters unchanged,
anything above 127 rendered as a decimal character reference. -/
def asciiXmlRef (s : List Char) : List Char :=
  s.flatMap fun c =>
    if c.toNat ≤ 127 then [c]
    else str "&#" ++ str (Nat.repr c.toNat) ++ str ";"

/-- The hard-coded character the default branch inserts for every bad tag
(`u"␡"` at `utils.py` line 1625). -/
def placeholderChar : Char := '␡'

/-- The default-branch loop: `for bad_tag in bad_tags: html =
html.replace(bad_tag, u"␡")`. -/
def applyReplaceSym : List Char → List (List Char) → List Char
  | h, [] => h
  | h, b :: bs => applyReplaceSym (pyReplace h b [placeholderChar]) bs

/-- The entities-branch loop: each iteration escapes the whole current
document and substitutes that for every occurrence of the bad tag. -/
def applyReplaceEnt : List Char → List (List Char) → List Char
  | h, [] => h
  | h, b :: bs =>
    applyReplaceEnt (pyReplace h b (asciiXmlRef (cgiEscape h))) bs

/-- The embedding of `strip_xss(html, whitelist, replacement)`
(`utils.py` lines 1534-1626). -/
def strip_xss (html : List Char) (whitelist : Option (List (List Char)))
    (replacement : List Char) : List Char × List (List Char) :=
  let wl := effWhitelist whitelist
  let badTags := (scanTexts html).filter (tagIsBad wl)
  if replacement = str "entities" then (applyReplaceEnt html badTags, badTags)
  else (applyReplaceSym html badTags, badTags)

/-- The default value of the `replacement` parameter. -/
def defaultReplacement : List Char := [placeholderChar]

example :
    strip_xss (str "<span>Hello, exploit: <img src=\"javascript:alert(1)\"></span>")
      none defaultReplacement =
    (str "<span>Hello, exploit: ␡</span>",
     [str "<img src=\"javascript:alert(1)\">"]) := by decide

/-!
## Claim-side definitions

Two definitions below do not embed source code: they transcribe the
wording of spec claims so that a divergence between claim and code can be
stated.  Each is marked as such.
-/

/-- Does any of the five attack signatures of the source fire on a
lower-cased tag text?  (The disjunction of the five checks of
`utils.py` lines 1599-1616.) -/
def sigAny (tl : List Char) : Bool :=
  containsSub tl (str "javascript:") || onEvents tl ||
    containsSub tl (str "fscommand") ||
    containsSub tl (str "seeksegmenttime") ||
    containsSub tl (str "vbscript:")

/-- Modelled from the spec claim C4 wording: the text contains a substring
matching the bare pattern `on[a-z]+\s*=`, with no whitespace requirement
before `on`. -/
def claimOnPattern : List Char → Bool
  | [] => false
  | c :: rest => onEvTail (c :: rest) || claimOnPattern rest

/-- Replace each given span `(start, length)` of the document (spans
sorted, disjoint) by the single placeholder character, leaving everything
else untouched; `base` is the offset of the head of `doc`. -/
def spliceSpans (doc : List Char) (base : Nat) :
    List (Nat × Nat) → List Char
  | [] => doc
  | (st, len) :: rest =>
    doc.take (st - base) ++ [placeholderChar] ++
      spliceSpans (doc.drop (st - base + len)) (st + len) rest

/-- Modelled from the spec claim C2 wording: symbol-mode output built by
replacing only each removed token's own occurrence span by the
placeholder, copying allowed spans and surrounding text unchanged. -/
def claimSymbolRender (doc : List Char) (wl : List (List Char)) : List Char :=
  spliceSpans doc 0
    (((scanTokens doc).filter fun t => tagIsBad wl t.2).map
      fun t => (t.1, t.2.length))

/-!
## Helper lemmas
-/

/-- Pointwise-equal predicates filter alike. -/
theorem filterExt {α : Type} (p q : α → Bool) (l : List α)
    (h : ∀ a ∈ l, p a = q a) : l.filter p = l.filter q := by
  induction l with
  | nil => rfl
  | cons a as ih =>
    simp only [List.filter]
    rw [h a (List.mem_cons_self a as), ih fun b hb => h b (List.mem_cons_of_mem a hb)]

/-- `memB` is Boolean list membership. -/
theorem memB_iff (x : List Char) (wl : List (List Char)) :
    memB x wl = true ↔ x ∈ wl := by
  induction wl with
  | nil => simp [memB]
  | cons w ws ih =>
    simp only [memB, Bool.or_eq_true, decide_eq_true_eq, List.mem_cons, ih]
    constructor
    · rintro (h | h)
      · exact Or.inl h.symm
      · exact Or.inr h
    · rintro (h | h)
      · exact Or.inl h.symm
      · exact Or.inr h

/-- The source's cascade of `if ... continue` checks equals the
disjunction "not whitelisted, or some signature fires". -/
theorem tagIsBad_eq (wl : List (List Char)) (t : List Char) :
    tagIsBad wl t =
      (!memB (shortTag (lowerL t)) wl || sigAny (lowerL t)) := by
  cases h1 : memB (shortTag (lowerL t)) wl <;>
    cases h2 : containsSub (lowerL t) (str "javascript:") <;>
      cases h3 : onEvents (lowerL t) <;>
        cases h4 : containsSub (lowerL t) (str "fscommand") <;>
          cases h5 : containsSub (lowerL t) (str "seeksegmenttime") <;>
            cases h6 : containsSub (lowerL t) (str "vbscript:") <;>
              simp [tagIsBad, sigAny, h1, h2, h3, h4, h5, h6]

/-- The removed list returned by `strip_xss` is the scan filtered by the
bad-tag predicate, in both replacement branches. -/
theorem strip_xss_snd (html : List Char) (wl : Option (List (List Char)))
    (r : List Char) :
    (strip_xss html wl r).snd =
      (scanTexts html).filter (tagIsBad (effWhitelist wl)) := by
  simp only [strip_xss]
  split <;> rfl

/-- When no tag is collected, both replacement branches return the
document unchanged. -/
theorem strip_xss_of_no_bad (html : List Char)
    (wl : Option (List (List Char))) (r : List Char)
    (h : (scanTexts html).filter (tagIsBad (effWhitelist wl)) = []) :
    strip_xss html wl r = (html, []) := by
  simp only [strip_xss]
  split <;> rw [h] <;> rfl

/-- The symbol-branch loop is a left fold of global replacement. -/
theorem applyReplaceSym_eq_foldl (l : List (List Char)) (h : List Char) :
    applyReplaceSym h l =
      l.foldl (fun acc t => pyReplace acc t [placeholderChar]) h := by
  induction l generalizing h with
  | nil => rfl
  | cons b bs ih => simp [applyReplaceSym, List.foldl, ih]

/-- A pointwise-false predicate filters to the empty list. -/
theorem filterNil {α : Type} (p : α → Bool) (l : List α)
    (h : ∀ a ∈ l, p a = false) : l.filter p = [] := by
  induction l with
  | nil => rfl
  | cons a as ih =>
    simp [List.filter, h a (List.mem_cons_self a as),
      ih fun b hb => h b (List.mem_cons_of_mem a hb)]

/-!
## The claims
-/

/-- C1 (confirmed): for every document, whitelist argument and replacement
mode, the removed list consists of exactly those scanned tag occurrences
whose derived name is missing from the effective whitelist or on whose
lower-cased raw text some attack signature fires; whitelist membership
alone never keeps a tag. -/
theorem C1_removed_iff_unwhitelisted_or_signature (doc : List Char)
    (wl : Option (List (List Char))) (r : List Char) :
    (strip_xss doc wl r).snd =
      (scanTexts doc).filter fun t =>
        !memB (shortTag (lowerL t)) (effWhitelist wl) || sigAny (lowerL t) := by
  rw [strip_xss_snd]
  exact filterExt _ _ _ fun t _ => tagIsBad_eq _ t

/-- C2 (counterexample): symbol-mode output is not the span-local
replacement the claim describes.  On a document whose removed token text
also occurs inside an allowed tag, the source's global `str.replace`
rewrites the allowed span too. -/
theorem C2_counterexample :
    (strip_xss (str "<img src=\"<b>\"><b>") none defaultReplacement).fst ≠
      claimSymbolRender (str "<img src=\"<b>\"><b>") defaultWhitelist ∧
    (strip_xss (str "<img src=\"<b>\"><b>") none defaultReplacement).fst =
      str "<img src=\"␡\">␡" ∧
    claimSymbolRender (str "<img src=\"<b>\"><b>") defaultWhitelist =
      str "<img src=\"<b>\">␡" := by decide

/-- C2 (amended): in symbol mode the sanitized text is obtained by taking
each removed token's raw text in order and replacing every occurrence of
that text in the current document — a global textual replacement that can
also rewrite identical substrings inside allowed spans — by the
placeholder character. -/
theorem C2_amended_global_replacement (doc : List Char)
    (wl : Option (List (List Char))) (r : List Char)
    (h : r ≠ str "entities") :
    (strip_xss doc wl r).fst =
      ((scanTexts doc).filter (tagIsBad (effWhitelist wl))).foldl
        (fun acc t => pyReplace acc t [placeholderChar]) doc := by
  simp only [strip_xss, if_neg h]
  exact applyReplaceSym_eq_foldl _ _

/-- Witness for the amended C2 at a concrete document. -/
theorem C2_amended_witness :
    defaultReplacement ≠ str "entities" ∧
    (strip_xss (str "<img src=\"<b>\"><b>") none defaultReplacement).fst =
      ((scanTexts (str "<img src=\"<b>\"><b>")).filter
          (tagIsBad (effWhitelist none))).foldl
        (fun acc t => pyReplace acc t [placeholderChar])
        (str "<img src=\"<b>\"><b>") :=
  ⟨by decide, C2_amended_global_replacement _ none defaultReplacement (by decide)⟩

/-- C3 (code bug): in entities mode the source escapes the *entire*
current document and substitutes that for the bad tag, instead of the
token-scoped escaping the spec states as intent.  On `x<b>y` the removed
tag `<b>` is replaced by the escape of the whole document, yielding
`xx&lt;b&gt;yy` rather than `x&lt;b&gt;y`. -/
theorem C3_entities_escapes_whole_document :
    strip_xss (str "x<b>y") none (str "entities") =
      (str "xx&lt;b&gt;yy", [str "<b>"]) := by decide

/-- C4 (counterexample): a whitelisted tag whose lower-cased text contains
a substring matching the bare pattern `on[a-z]+\s*=` with no whitespace
before `on` is scanned but NOT removed: the source's `on_events_re`
demands at least one whitespace character immediately before `on`. -/
theorem C4_counterexample :
    claimOnPattern (lowerL (str "<img xony=1>")) = true ∧
    scanTexts (str "<img xony=1>") = [str "<img xony=1>"] ∧
    strip_xss (str "<img xony=1>") none defaultReplacement =
      (str "<img xony=1>", []) := by decide

/-- C4 (amended): every scanned tag whose lower-cased raw text matches the
source pattern `\s+on[a-z]+\s*=` — whitespace required immediately before
the attribute — is removed, even when its tag name is whitelisted. -/
theorem C4_amended_ws_on_event_removed (doc : List Char)
    (wl : Option (List (List Char))) (r : List Char) (t : List Char)
    (h1 : t ∈ scanTexts doc) (h2 : onEvents (lowerL t) = true) :
    t ∈ (strip_xss doc wl r).snd := by
  rw [strip_xss_snd]
  refine List.mem_filter.mpr ⟨h1, ?_⟩
  rw [tagIsBad_eq]
  simp [sigAny, h2]

/-- Witness for the amended C4: the whitelisted `<img onx=1>` matches the
event-handler signature and lands in the removed list. -/
theorem C4_amended_witness :
    str "<img onx=1>" ∈ scanTexts (str "<img onx=1>") ∧
    onEvents (lowerL (str "<img onx=1>")) = true ∧
    str "<img onx=1>" ∈
      (strip_xss (str "<img onx=1>") none defaultReplacement).snd :=
  ⟨by decide, by decide,
    C4_amended_ws_on_event_removed _ none defaultReplacement _
      (by decide) (by decide)⟩

/-- C5 (code bug): the symbol branch inserts the hard-coded `u"␡"`
literal, ignoring the caller's `replacement` argument: called with
replacement `"X"`, the removed `<b>` still becomes `␡`, not `X`. -/
theorem C5_replacement_parameter_ignored :
    strip_xss (str "<b>") none (str "X") =
      (str "␡", [str "<b>"]) := by decide

/-- C6 (counterexample): the slash of a self-closing tag survives name
extraction (`rstrip` strips only `>` characters), so `<img/>` gets name
`img/`, is not found in the whitelist, and is removed — contradicting the
claim that such a tag is classified as permitted. -/
theorem C6_counterexample :
    str "img" ∈ defaultWhitelist ∧
    scanTexts (str "<img/>") = [str "<img/>"] ∧
    strip_xss (str "<img/>") none defaultReplacement =
      (str "␡", [str "<img/>"]) := by decide

/-- C6 (amended): the name used for the whitelist decision is the first
whitespace-separated token of the lower-cased raw text with all leading
angle-bracket or slash characters and all trailing close-bracket
characters stripped — a trailing slash is kept.  Consequently `<img/>`
yields the name `img/` and is removed whenever `img/` is not itself
whitelisted, while `<img />` yields `img` and is kept. -/
theorem C6_amended_self_closing_removed (wl : List (List Char))
    (r : List Char) (h1 : str "img" ∈ wl) (h2 : str "img/" ∉ wl) :
    shortTag (lowerL (str "<img/>")) = str "img/" ∧
    (strip_xss (str "<img/>") (some wl) r).snd = [str "<img/>"] ∧
    (strip_xss (str "<img />") (some wl) r).snd = [] := by
  have hwl : effWhitelist (some wl) = wl := by
    cases wl with
    | nil => cases h1
    | cons a l => rfl
  refine ⟨by decide, ?_, ?_⟩
  · rw [strip_xss_snd, hwl]
    have hscan : scanTexts (str "<img/>") = [str "<img/>"] := by decide
    rw [hscan]
    have hbad : tagIsBad wl (str "<img/>") = true := by
      rw [tagIsBad_eq]
      have hst : shortTag (lowerL (str "<img/>")) = str "img/" := by decide
      rw [hst]
      have hm : memB (str "img/") wl = false := by
        cases hmb : memB (str "img/") wl
        · rfl
        · exact absurd ((memB_iff _ _).mp hmb) h2
      rw [hm]
      rfl
    simp [List.filter, hbad]
  · rw [strip_xss_snd, hwl]
    have hscan : scanTexts (str "<img />") = [str "<img />"] := by decide
    rw [hscan]
    have hgood : tagIsBad wl (str "<img />") = false := by
      rw [tagIsBad_eq]
      have hst : shortTag (lowerL (str "<img />")) = str "img" := by decide
      rw [hst]
      have hm : memB (str "img") wl = true := (memB_iff _ _).mpr h1
      have hsig : sigAny (lowerL (str "<img />")) = false := by decide
      rw [hm, hsig]
      rfl
    simp [List.filter, hgood]

/-- Witness for the amended C6 on the default whitelist. -/
theorem C6_amended_witness :
    str "img" ∈ defaultWhitelist ∧ str "img/" ∉ defaultWhitelist ∧
    (shortTag (lowerL (str "<img/>")) = str "img/" ∧
     (strip_xss (str "<img/>") (some defaultWhitelist)
        defaultReplacement).snd = [str "<img/>"] ∧
     (strip_xss (str "<img />") (some defaultWhitelist)
        defaultReplacement).snd = []) :=
  ⟨by decide, by decide,
    C6_amended_self_closing_removed defaultWhitelist defaultReplacement
      (by decide) (by decide)⟩

/-- C7 (confirmed): a document all of whose scanned tags are whitelisted
and signature-free comes back unchanged with an empty removed list,
whatever the replacement mode. -/
theorem C7_clean_documents_unchanged (doc : List Char)
    (wl : Option (List (List Char))) (r : List Char)
    (h : ∀ t ∈ scanTexts doc,
      memB (shortTag (lowerL t)) (effWhitelist wl) = true ∧
        sigAny (lowerL t) = false) :
    strip_xss doc wl r = (doc, []) := by
  apply strip_xss_of_no_bad
  apply filterNil
  intro t ht
  rw [tagIsBad_eq]
  rcases h t ht with ⟨hm, hs⟩
  rw [hm, hs]
  rfl

/-- Witness for C7 at a concrete whitelisted document. -/
theorem C7_witness :
    (∀ t ∈ scanTexts (str "<i>x</i>"),
      memB (shortTag (lowerL t)) (effWhitelist none) = true ∧
        sigAny (lowerL t) = false) ∧
    strip_xss (str "<i>x</i>") none defaultReplacement =
      (str "<i>x</i>", []) :=
  ⟨by decide, C7_clean_documents_unchanged _ none defaultReplacement (by decide)⟩

/-- C8 (counterexample): symbol-mode sanitization is not idempotent.  On
`<img alt=<b> onload=x><b>` the first pass removes only `<b>`, but the
global replacement also rewrites the `<b>` occurrence inside the first
tag, merging it with the following text into the new token
`<img alt=␡ onload=x>`, which the second pass removes. -/
theorem C8_counterexample :
    strip_xss (str "<img alt=<b> onload=x><b>") none defaultReplacement =
      (str "<img alt=␡ onload=x>␡", [str "<b>"]) ∧
    strip_xss
        ((strip_xss (str "<img alt=<b> onload=x><b>") none
          defaultReplacement).fst) none defaultReplacement =
      (str "␡␡", [str "<img alt=␡ onload=x>"]) ∧
    (strip_xss
        ((strip_xss (str "<img alt=<b> onload=x><b>") none
          defaultReplacement).fst) none defaultReplacement).fst ≠
      (strip_xss (str "<img alt=<b> onload=x><b>") none
        defaultReplacement).fst := by decide

/-- C8 (amended): a second symbol-mode pass is guaranteed to change
nothing when the first pass removed nothing; when the first pass does
remove tags, its replacements can splice the document into new removable
tokens, so idempotence holds only for first-pass-clean inputs. -/
theorem C8_amended_idempotent_when_clean (doc : List Char)
    (wl : Option (List (List Char))) (r : List Char)
    (h : (strip_xss doc wl r).snd = []) :
    strip_xss ((strip_xss doc wl r).fst) wl r = strip_xss doc wl r := by
  have hfilter : (scanTexts doc).filter (tagIsBad (effWhitelist wl)) = [] := by
    rw [← strip_xss_snd doc wl r]
    exact h
  have heq : strip_xss doc wl r = (doc, []) :=
    strip_xss_of_no_bad _ _ _ hfilter
  rw [heq]
  exact heq

/-- Witness for the amended C8 at a concrete clean document. -/
theorem C8_amended_witness :
    (strip_xss (str "<i>hello</i>") none defaultReplacement).snd = [] ∧
    strip_xss ((strip_xss (str "<i>hello</i>") none
        defaultReplacement).fst) none defaultReplacement =
      strip_xss (str "<i>hello</i>") none defaultReplacement :=
  ⟨by decide,
    C8_amended_idempotent_when_clean _ none defaultReplacement (by decide)⟩

/-- C10 (confirmed): an empty whitelist argument is falsy in the source's
`if not whitelist:` test, so it is replaced by the built-in default list;
sanitizing with an empty whitelist equals sanitizing with no whitelist. -/
theorem C10_empty_whitelist_means_default (doc : List Char) (r : List Char) :
    strip_xss doc (some []) r = strip_xss doc none r := rfl
